import Mathlib

/-!
Shallow embedding of `src/text_myself.py` (a single-module Twilio SMS
notifier) and proofs about the claims of its specification.

Modelling conventions:
* Python strings are `String`; Python `None`-able values are `Option`.
* A raised exception is `Except.error` carrying the exception text; a
  caught exception disappears exactly where the Python `except` block is.
* The Twilio REST client is a `Client` record of its two used operations:
  `messages.create` (submit) and `messages.get(sid).fetch()` (status
  fetch).  A fetch may answer differently on successive calls, so it is
  indexed by the number of fetches already performed in the run.
* The `backoff.on_predicate(backoff.fibo, pred, max_value=13)` decorator
  is embedded by `retryLoop`: the library's retry loop with
  `max_tries=None` and `max_time=None` (the decorator passes neither), run
  for at most `fuel` invocations of the target.  `result = none` records
  that the loop was still retrying when the fuel ran out — the real loop
  has no give-up condition, so it can only ever stop on a predicate
  failure or an exception.  The decorator's default
  `jitter=backoff.full_jitter` sleeps `random.uniform(0, value)` for each
  value drawn from the wait generator; the run is therefore parametrized
  by the stream of jitter draws `jitter : Nat → ℚ` (the successive
  `random.uniform(0, 1)` outcomes of the process's PRNG, each in
  `[0, 1]`), and the `t`-th sleep is `jitter t * value_t`.  Only real
  time itself is outside the embedding.
* The filesystem and ConfigParser are a `FileSystem` record: which paths
  exist, and the parsed key/value sections obtained by reading a path
  (reading a missing path yields whatever empty config the instance
  assigns, matching ConfigParser's silent behaviour).
-/

namespace TextMyself

/-- A Twilio SMS message object: only its `sid` and `status` fields are
used by the module. -/
structure SmsMessage where
  sid : String
  status : String
deriving DecidableEq, Repr

/-- The Twilio REST client.  `create to body from_` models
`client.messages.create(to=..., body=..., from_=...)`;
`fetch sid i` models the `i`-th `client.messages.get(sid).fetch()` of the
run and yields the updated message or a raised exception. -/
structure Client where
  create : String → String → String → Except String SmsMessage
  fetch : String → Nat → Except String SmsMessage

/-- A parsed `.ini` config: the `Twilio` and `General` sections as
key/value association lists. -/
structure ConfigFile where
  twilio : List (String × String)
  general : List (String × String)

/-- The local filesystem as seen through `os.path.exists` and
`ConfigParser.read`. -/
structure FileSystem where
  pathExists : String → Bool
  configAt : String → ConfigFile

/-- Module constant `CONFIG_FILEPATH` (the `os.path.expanduser` call is
abstracted; only the identity of the path matters to the module). -/
def CONFIG_FILEPATH : String := "~/dev/py_config.ini"

/-- The `if not config_filepath` fallback at the top of
`get_sms_credentials`: a `None` (or empty, Python-falsy) argument is
replaced by the module constant. -/
def resolveConfigPath : Option String → String
  | none => CONFIG_FILEPATH
  | some p => if p.isEmpty then CONFIG_FILEPATH else p

/-- The `try` body of `get_sms_credentials`: assign the four keys in
order into the dict, stopping at the first missing one (the raised
`KeyError` is caught and only printed).  The flag records whether the
`except` branch ran.  Note the dict key for the recipient is
`TO_PHONE_NUMBER`, read from config key `MY_PHONE_NUMBER` in section
`General`. -/
def readCredentials (config : ConfigFile) : List (String × String) × Bool :=
  match List.lookup "ACCOUNT_SID" config.twilio with
  | none => ([], true)
  | some sid =>
    match List.lookup "AUTH_TOKEN" config.twilio with
    | none => ([("ACCOUNT_SID", sid)], true)
    | some token =>
      match List.lookup "FROM_PHONE_NUMBER" config.twilio with
      | none => ([("ACCOUNT_SID", sid), ("AUTH_TOKEN", token)], true)
      | some fromNum =>
        match List.lookup "MY_PHONE_NUMBER" config.general with
        | none => ([("ACCOUNT_SID", sid), ("AUTH_TOKEN", token),
            ("FROM_PHONE_NUMBER", fromNum)], true)
        | some toNum => ([("ACCOUNT_SID", sid), ("AUTH_TOKEN", token),
            ("FROM_PHONE_NUMBER", fromNum), ("TO_PHONE_NUMBER", toNum)], false)

/-- `get_sms_credentials(config_filepath=None)`.  Returns the raised
`ValueError`'s text, or the credentials dict (as an association list in
insertion order) together with the except-branch flag (nothing is raised
for a missing key).  Faithful detail: the existence check on line 48
tests the module constant `CONFIG_FILEPATH`, not the resolved
`config_filepath` argument, which is only used for the read. -/
def get_sms_credentials (fs : FileSystem) (config_filepath : Option String) :
    Except String (List (String × String) × Bool) :=
  if fs.pathExists CONFIG_FILEPATH = false then
    Except.error "Path provided for config file does not exist"
  else
    Except.ok (readCredentials (fs.configAt (resolveConfigPath config_filepath)))

/-- Python truthiness test `not x` for an optional string: `None` and the
empty string are falsy. -/
def falsyStr : Option String → Bool
  | none => true
  | some s => s.isEmpty

/-- Normal-return value of `send_sms_message`: the handle (still `None`
when submission raised and was caught) and whether the warning was
logged. -/
structure SendResult where
  sms_message : Option SmsMessage
  warned : Bool
deriving DecidableEq, Repr

/-- `send_sms_message(client=None, from_phone_number=None,
to_phone_number=None, message=None)`.  The `Nat` component counts gateway
submit calls actually made.  The four `ValueError`s are raised before the
`try` block; `client.messages.create` is called inside it and an
exception there is caught, logged as a warning, and replaced by the
`None` handle. -/
def send_sms_message (client : Option Client)
    (from_phone_number to_phone_number message : Option String) :
    Except String SendResult × Nat :=
  match client with
  | none => (Except.error "No API client found.", 0)
  | some c =>
    if falsyStr from_phone_number then (Except.error "No from-phone-number found.", 0)
    else if falsyStr to_phone_number then (Except.error "No to-phone-number found.", 0)
    else if falsyStr message then (Except.error "No message found.", 0)
    else
      match c.create (to_phone_number.getD "") (message.getD "") (from_phone_number.getD "") with
      | Except.ok m => (Except.ok ⟨some m, false⟩, 1)
      | Except.error _ => (Except.ok ⟨none, true⟩, 1)

/-- One step of the `backoff.fibo(max_value)` generator's internal state
`(a, b)`: it advances only while `a < max_value`. -/
def fiboStep (maxValue : Nat) (p : Nat × Nat) : Nat × Nat :=
  if p.1 < maxValue then (p.2, p.1 + p.2) else p

/-- The generator state of `backoff.fibo(max_value)` before the `n`-th
yield. -/
def fiboPair (maxValue : Nat) : Nat → Nat × Nat
  | 0 => (1, 1)
  | n + 1 => fiboStep maxValue (fiboPair maxValue n)

/-- The `n`-th value yielded by `backoff.fibo(max_value)`: `a` while
`a < max_value`, otherwise `max_value`. -/
def fiboWait (maxValue n : Nat) : Nat :=
  if (fiboPair maxValue n).1 < maxValue then (fiboPair maxValue n).1 else maxValue

/-- The wait generator configured on `confirm_sms_delivery`:
`backoff.fibo` with `max_value=13`. -/
def fibo13 (n : Nat) : Nat := fiboWait 13 n

/-- The decorator's predicate `lambda status: status != 'delivered'`
(retry while true).  `status` is `None` or a Twilio status string. -/
def statusRetry (status : Option String) : Bool := status != some "delivered"

/-- Observable trace of one decorated call: the returned value or
propagated exception (`none` while the loop is still retrying when the
fuel runs out), the number of gateway fetches performed, and the
sequence of actual sleeps between successive target invocations — each
the wait-generator value of that step scaled by that step's
`full_jitter` draw. -/
structure PollTrace where
  result : Option (Except String (Option String))
  fetches : Nat
  waits : List ℚ
deriving Repr

/-- The retry loop of `backoff.on_predicate` as configured on
`confirm_sms_delivery`: no `max_tries`, no `max_time`, so the loop stops
only when the predicate fails or the target raises.  `body t` is the
`t`-th invocation of the undecorated target, reporting its value or
exception and the number of gateway fetches it performed; before the
`t`-th retry the loop sleeps `jitter t * waitGen t`, the library's
`full_jitter(value) = random.uniform(0, value)` with the uniform draw
written as the fraction `jitter t` of `value`. -/
def retryLoop (pred : Option String → Bool)
    (body : Nat → Except String (Option String) × Nat)
    (waitGen : Nat → Nat) (jitter : Nat → ℚ) : Nat → Nat → PollTrace
  | 0, _ => ⟨none, 0, []⟩
  | fuel + 1, t =>
    let step := body t
    match step.1 with
    | Except.error e => ⟨some (Except.error e), step.2, []⟩
    | Except.ok v =>
      if pred v then
        let rest := retryLoop pred body waitGen jitter fuel (t + 1)
        ⟨rest.result, step.2 + rest.fetches, jitter t * (waitGen t : ℚ) :: rest.waits⟩
      else ⟨some (Except.ok v), step.2, []⟩

/-- The undecorated body of `confirm_sms_delivery(client,
sms_message=None)`: start from `status = None`, and only when a handle is
present fetch the updated message and take its status.  A raised fetch
exception leaves the body uncaught. -/
def confirmBody (client : Client) (sms_message : Option SmsMessage) (t : Nat) :
    Except String (Option String) × Nat :=
  match sms_message with
  | none => (Except.ok none, 0)
  | some m =>
    match client.fetch m.sid t with
    | Except.error e => (Except.error e, 1)
    | Except.ok updated => (Except.ok (some updated.status), 1)

/-- The decorated `confirm_sms_delivery`, run with at most `fuel`
invocations of the body, under the jitter-draw stream `jitter`. -/
def confirm_sms_delivery (client : Client) (sms_message : Option SmsMessage)
    (jitter : Nat → ℚ) (fuel : Nat) : PollTrace :=
  retryLoop statusRetry (confirmBody client sms_message) fibo13 jitter fuel 0

/-- The ambient process environment of `run`: the filesystem, the
Twilio library's `Client(account_sid, auth_token)` constructor, and the
process PRNG's stream of `random.uniform(0, 1)` jitter draws. -/
structure Env where
  fs : FileSystem
  mkClient : String → String → Client
  jitter : Nat → ℚ

/-- Outcome of one `run` call.  `crashed e` means an exception escaped
`run`; `finished` means `run` returned normally (anything raised inside
its `try` was caught and logged); `polling` means the fuel ran out while
the delivery-confirmation loop was still retrying (the real process would
still be sleeping and fetching). -/
inductive RunResult where
  | crashed (e : String)
  | finished
  | polling
deriving DecidableEq, Repr

/-- `' '.join(args.parse_args().message)`: joining the parsed `-m` tokens
with spaces, a `TypeError` when the flag was absent (`message` is then
`None`). -/
def joinTokens : Option (List String) → Except String String
  | none => Except.error "TypeError: can only join an iterable"
  | some toks => Except.ok (" ".intercalate toks)

/-- The message-argument resolution at the top of `run`, before its `try`
block: a falsy `message` parameter falls back to the CLI tokens. -/
def resolveMessage (message : Option String) (cliTokens : Option (List String)) :
    Except String String :=
  match message with
  | some m => if m.isEmpty then joinTokens cliTokens else Except.ok m
  | none => joinTokens cliTokens

/-- The body of `run`'s `try` block (credentials → client → submit → poll
→ log), given an already-resolved message.  The `Nat` counts gateway
submit calls.  Every exception raised inside is caught by the `except`
clause, so the outcome is never `crashed`. -/
def runPipeline (env : Env) (message : String) (fuel : Nat) : RunResult × Nat :=
  match get_sms_credentials env.fs none with
  | Except.error _ => (RunResult.finished, 0)
  | Except.ok creds =>
    match List.lookup "ACCOUNT_SID" creds.1 with
    | none => (RunResult.finished, 0)
    | some sid =>
      match List.lookup "AUTH_TOKEN" creds.1 with
      | none => (RunResult.finished, 0)
      | some token =>
        match List.lookup "FROM_PHONE_NUMBER" creds.1 with
        | none => (RunResult.finished, 0)
        | some fromNum =>
          match List.lookup "TO_PHONE_NUMBER" creds.1 with
          | none => (RunResult.finished, 0)
          | some toNum =>
            match send_sms_message (some (env.mkClient sid token)) (some fromNum)
                (some toNum) (some message) with
            | (Except.error _, n) => (RunResult.finished, n)
            | (Except.ok sres, n) =>
              match (confirm_sms_delivery (env.mkClient sid token)
                  sres.sms_message env.jitter fuel).result with
              | none => (RunResult.polling, n)
              | some _ => (RunResult.finished, n)

/-- `run(message=None)`: resolve the message (outside the `try` block —
a failure here escapes), then execute the pipeline under the `try`. -/
def run (env : Env) (message : Option String) (cliTokens : Option (List String))
    (fuel : Nat) : RunResult × Nat :=
  match resolveMessage message cliTokens with
  | Except.error e => (RunResult.crashed e, 0)
  | Except.ok msg => runPipeline env msg fuel

/-! ### Step equations for the retry loop -/

lemma retryLoop_result_retry (pred : Option String → Bool)
    (body : Nat → Except String (Option String) × Nat) (waitGen : Nat → Nat)
    (jitter : Nat → ℚ) (fuel t : Nat) (v : Option String) (c : Nat)
    (hb : body t = (Except.ok v, c)) (hp : pred v = true) :
    (retryLoop pred body waitGen jitter (fuel + 1) t).result =
      (retryLoop pred body waitGen jitter fuel (t + 1)).result := by
  simp [retryLoop, hb, hp]

lemma retryLoop_fetches_retry (pred : Option String → Bool)
    (body : Nat → Except String (Option String) × Nat) (waitGen : Nat → Nat)
    (jitter : Nat → ℚ) (fuel t : Nat) (v : Option String) (c : Nat)
    (hb : body t = (Except.ok v, c)) (hp : pred v = true) :
    (retryLoop pred body waitGen jitter (fuel + 1) t).fetches =
      c + (retryLoop pred body waitGen jitter fuel (t + 1)).fetches := by
  simp [retryLoop, hb, hp]

lemma retryLoop_waits_retry (pred : Option String → Bool)
    (body : Nat → Except String (Option String) × Nat) (waitGen : Nat → Nat)
    (jitter : Nat → ℚ) (fuel t : Nat) (v : Option String) (c : Nat)
    (hb : body t = (Except.ok v, c)) (hp : pred v = true) :
    (retryLoop pred body waitGen jitter (fuel + 1) t).waits =
      jitter t * (waitGen t : ℚ) ::
        (retryLoop pred body waitGen jitter fuel (t + 1)).waits := by
  simp [retryLoop, hb, hp]

lemma retryLoop_stop (pred : Option String → Bool)
    (body : Nat → Except String (Option String) × Nat) (waitGen : Nat → Nat)
    (jitter : Nat → ℚ) (fuel t : Nat) (v : Option String) (c : Nat)
    (hb : body t = (Except.ok v, c)) (hp : pred v = false) :
    retryLoop pred body waitGen jitter (fuel + 1) t = ⟨some (Except.ok v), c, []⟩ := by
  simp [retryLoop, hb, hp]

lemma retryLoop_error (pred : Option String → Bool)
    (body : Nat → Except String (Option String) × Nat) (waitGen : Nat → Nat)
    (jitter : Nat → ℚ) (fuel t : Nat) (e : String) (c : Nat)
    (hb : body t = (Except.error e, c)) :
    retryLoop pred body waitGen jitter (fuel + 1) t = ⟨some (Except.error e), c, []⟩ := by
  simp [retryLoop, hb]

/-- The returned value and the fetch count of a run do not depend on the
jitter draws (only the sleeps do). -/
lemma retryLoop_jitter_irrelevant (pred : Option String → Bool)
    (body : Nat → Except String (Option String) × Nat) (waitGen : Nat → Nat)
    (j j2 : Nat → ℚ) :
    ∀ (fuel t : Nat),
      (retryLoop pred body waitGen j fuel t).result =
        (retryLoop pred body waitGen j2 fuel t).result ∧
      (retryLoop pred body waitGen j fuel t).fetches =
        (retryLoop pred body waitGen j2 fuel t).fetches := by
  intro fuel
  induction fuel with
  | zero => intro t; exact ⟨rfl, rfl⟩
  | succ n ih =>
    intro t
    rcases hb : body t with ⟨r, c⟩
    cases r with
    | error e =>
      constructor <;> simp [retryLoop, hb]
    | ok v =>
      cases hp : pred v with
      | false => constructor <;> simp [retryLoop, hb, hp]
      | true =>
        refine ⟨?_, ?_⟩
        · rw [retryLoop_result_retry pred body waitGen j n t v c hb hp,
            retryLoop_result_retry pred body waitGen j2 n t v c hb hp]
          exact (ih (t + 1)).1
        · rw [retryLoop_fetches_retry pred body waitGen j n t v c hb hp,
            retryLoop_fetches_retry pred body waitGen j2 n t v c hb hp,
            (ih (t + 1)).2]

/-! ### Evaluation of the poller body and predicate -/

lemma confirmBody_ok (client : Client) (m : SmsMessage) (u : SmsMessage) (t : Nat)
    (hu : client.fetch m.sid t = Except.ok u) :
    confirmBody client (some m) t = (Except.ok (some u.status), 1) := by
  simp [confirmBody, hu]

lemma confirmBody_err (client : Client) (m : SmsMessage) (e : String) (t : Nat)
    (hu : client.fetch m.sid t = Except.error e) :
    confirmBody client (some m) t = (Except.error e, 1) := by
  simp [confirmBody, hu]

lemma statusRetry_ne (s : String) (h : s ≠ "delivered") :
    statusRetry (some s) = true := by
  simp [statusRetry, h]

/-! ### Runs of the poller -/

lemma confirm_none_aux (client : Client) (jitter : Nat → ℚ) : ∀ (fuel t : Nat),
    (retryLoop statusRetry (confirmBody client none) fibo13 jitter fuel t).result = none ∧
    (retryLoop statusRetry (confirmBody client none) fibo13 jitter fuel t).fetches = 0 := by
  intro fuel
  induction fuel with
  | zero => intro t; exact ⟨rfl, rfl⟩
  | succ n ih =>
    intro t
    have hb : confirmBody client none t = (Except.ok none, 0) := rfl
    rw [retryLoop_result_retry statusRetry (confirmBody client none) fibo13 jitter n t
        none 0 hb rfl,
      retryLoop_fetches_retry statusRetry (confirmBody client none) fibo13 jitter n t
        none 0 hb rfl]
    exact ⟨(ih (t + 1)).1, by rw [(ih (t + 1)).2]⟩

lemma confirm_stuck_aux (client : Client) (m : SmsMessage) (jitter : Nat → ℚ)
    (h : ∀ i, ∃ u, client.fetch m.sid i = Except.ok u ∧ u.status ≠ "delivered") :
    ∀ (fuel t : Nat),
      (retryLoop statusRetry (confirmBody client (some m)) fibo13 jitter fuel t).result =
        none ∧
      (retryLoop statusRetry (confirmBody client (some m)) fibo13 jitter fuel t).fetches =
        fuel := by
  intro fuel
  induction fuel with
  | zero => intro t; exact ⟨rfl, rfl⟩
  | succ n ih =>
    intro t
    obtain ⟨u, hu, hne⟩ := h t
    rw [retryLoop_result_retry statusRetry (confirmBody client (some m)) fibo13 jitter n t
        (some u.status) 1 (confirmBody_ok client m u t hu) (statusRetry_ne u.status hne),
      retryLoop_fetches_retry statusRetry (confirmBody client (some m)) fibo13 jitter n t
        (some u.status) 1 (confirmBody_ok client m u t hu) (statusRetry_ne u.status hne)]
    refine ⟨(ih (t + 1)).1, ?_⟩
    rw [(ih (t + 1)).2]
    omega

lemma confirm_skip (client : Client) (m : SmsMessage) (jitter : Nat → ℚ) :
    ∀ (k t fuel : Nat),
      (∀ i, i < k → ∃ u, client.fetch m.sid (t + i) = Except.ok u ∧
        u.status ≠ "delivered") →
      (retryLoop statusRetry (confirmBody client (some m)) fibo13 jitter
          (k + fuel) t).result =
          (retryLoop statusRetry (confirmBody client (some m)) fibo13 jitter fuel
            (t + k)).result ∧
        (retryLoop statusRetry (confirmBody client (some m)) fibo13 jitter
            (k + fuel) t).fetches =
          k + (retryLoop statusRetry (confirmBody client (some m)) fibo13 jitter fuel
            (t + k)).fetches := by
  intro k
  induction k with
  | zero => intro t fuel _h; simp
  | succ n ih =>
    intro t fuel h
    obtain ⟨u, hu, hne⟩ := h 0 (Nat.succ_pos n)
    rw [Nat.add_zero] at hu
    have harr : n + 1 + fuel = n + fuel + 1 := by omega
    have hshift : ∀ i, i < n → ∃ u2,
        client.fetch m.sid (t + 1 + i) = Except.ok u2 ∧ u2.status ≠ "delivered" := by
      intro i hi
      have h2 := h (i + 1) (by omega)
      have ht2 : t + (i + 1) = t + 1 + i := by omega
      rwa [ht2] at h2
    have ih2 := ih (t + 1) fuel hshift
    have ht : t + 1 + n = t + (n + 1) := by omega
    rw [ht] at ih2
    rw [harr,
      retryLoop_result_retry statusRetry (confirmBody client (some m)) fibo13 jitter
        (n + fuel) t (some u.status) 1 (confirmBody_ok client m u t hu)
        (statusRetry_ne u.status hne),
      retryLoop_fetches_retry statusRetry (confirmBody client (some m)) fibo13 jitter
        (n + fuel) t (some u.status) 1 (confirmBody_ok client m u t hu)
        (statusRetry_ne u.status hne)]
    exact ⟨ih2.1, by rw [ih2.2]; omega⟩

/-! ### The Fibonacci backoff schedule is non-decreasing -/

lemma fiboPair_fst_le_snd (maxValue : Nat) :
    ∀ n, (fiboPair maxValue n).1 ≤ (fiboPair maxValue n).2 := by
  intro n
  induction n with
  | zero => exact le_refl 1
  | succ n ih =>
    simp only [fiboPair, fiboStep]
    split
    · exact Nat.le_add_left _ _
    · exact ih

lemma fibo13_le_succ (n : Nat) : fibo13 n ≤ fibo13 (n + 1) := by
  have hle := fiboPair_fst_le_snd 13 n
  have hstep : fiboPair 13 (n + 1) = fiboStep 13 (fiboPair 13 n) := rfl
  rcases hab : fiboPair 13 n with ⟨a, b⟩
  rw [hab] at hle hstep
  simp only [fibo13, fiboWait, hab, hstep, fiboStep]
  simp only at hle
  by_cases h : a < 13
  · simp only [if_pos h]
    by_cases h2 : b < 13
    · simp only [if_pos h2]
      exact hle
    · simp only [if_neg h2]
      omega
  · simp only [if_neg h]
    exact le_refl 13

/-- Every run's wait list is pointwise the jittered schedule: its `p`-th
entry (counting from the invocation index the run started at) is
`jitter p * fibo13 p`. -/
lemma retryLoop_waits_closed_form (pred : Option String → Bool)
    (body : Nat → Except String (Option String) × Nat) (jitter : Nat → ℚ) :
    ∀ (fuel t : Nat),
      (retryLoop pred body fibo13 jitter fuel t).waits =
        (List.range' t (retryLoop pred body fibo13 jitter fuel t).waits.length).map
          (fun p => jitter p * (fibo13 p : ℚ)) := by
  intro fuel
  induction fuel with
  | zero => intro t; rfl
  | succ n ih =>
    intro t
    rcases hb : body t with ⟨r, c⟩
    cases r with
    | error e => simp [retryLoop, hb]
    | ok v =>
      cases hp : pred v with
      | false => simp [retryLoop, hb, hp]
      | true =>
        have hw : (retryLoop pred body fibo13 jitter (n + 1) t).waits =
            jitter t * (fibo13 t : ℚ) ::
              (retryLoop pred body fibo13 jitter n (t + 1)).waits :=
          retryLoop_waits_retry pred body fibo13 jitter n t v c hb hp
        rw [hw, List.length_cons, List.range'_succ, List.map_cons]
        congr 1
        exact ih (t + 1)

/-! ### Concrete environments used as witnesses and counterexamples -/

/-- A gateway whose fetch always answers status `queued`. -/
def queuedClient : Client :=
  ⟨fun _ _ _ => Except.error "unused", fun _ _ => Except.ok ⟨"SM1", "queued"⟩⟩

/-- A gateway whose fetch always answers status `delivered`. -/
def deliveredClient : Client :=
  ⟨fun _ _ _ => Except.error "unused", fun _ _ => Except.ok ⟨"SM1", "delivered"⟩⟩

/-- A gateway whose submit and fetch both raise. -/
def errClient : Client :=
  ⟨fun _ _ _ => Except.error "boom", fun _ _ => Except.error "boom"⟩

/-- A gateway answering `queued`, `queued`, then `delivered`. -/
def qqdClient : Client :=
  ⟨fun _ _ _ => Except.error "unused",
   fun _ i => if i < 2 then Except.ok ⟨"SM2", "queued"⟩
     else Except.ok ⟨"SM2", "delivered"⟩⟩

/-! ### Claims about the delivery-confirmation poller -/

/-- C1: the spec claims that when the fetched status never equals
`delivered`, the poller performs at most a fixed configured maximum
number of fetch attempts and then returns the last observed non-terminal
status.  The code's decorator passes neither `max_tries` nor `max_time`,
so the loop never gives up: after any number `fuel` of iterations it has
performed `fuel` fetches and still has no return value.  This theorem
evaluates the code at such a failing input: the attempt count is
unbounded and no status is ever returned. -/
theorem c1_never_delivered_retries_unboundedly (client : Client) (m : SmsMessage)
    (h : ∀ i, ∃ u, client.fetch m.sid i = Except.ok u ∧ u.status ≠ "delivered")
    (jitter : Nat → ℚ) (fuel : Nat) :
    (confirm_sms_delivery client (some m) jitter fuel).result = none ∧
    (confirm_sms_delivery client (some m) jitter fuel).fetches = fuel :=
  confirm_stuck_aux client m jitter h fuel 0

/-- Witness for C1 at the always-`queued` gateway with 37 iterations of
fuel. -/
theorem c1_never_delivered_retries_unboundedly_witness :
    (confirm_sms_delivery queuedClient (some ⟨"SM1", "queued"⟩) (fun _ => 1) 37).result =
      none ∧
    (confirm_sms_delivery queuedClient (some ⟨"SM1", "queued"⟩) (fun _ => 1) 37).fetches =
      37 :=
  c1_never_delivered_retries_unboundedly queuedClient ⟨"SM1", "queued"⟩
    (fun _i => ⟨⟨"SM1", "queued"⟩, rfl, by decide⟩) (fun _ => 1) 37

/-- C2: the spec claims that a `None` message handle makes the poller
return a null status without invoking the fetch capability.  The
undecorated body would do exactly that, but the decorator's predicate
`status != 'delivered'` is true of `None` and there is no `max_tries`,
so the decorated poller never returns at all: after any number `fuel` of
iterations it has made zero fetches and still has no return value. -/
theorem c2_null_handle_no_fetch_but_no_return (client : Client) (jitter : Nat → ℚ)
    (fuel : Nat) :
    (confirm_sms_delivery client none jitter fuel).result = none ∧
    (confirm_sms_delivery client none jitter fuel).fetches = 0 :=
  confirm_none_aux client jitter fuel 0

/-- C5: if the first `k` fetches answer non-`delivered` statuses and
fetch `k` answers `delivered`, the poller returns `delivered` at once
and performs exactly `k + 1` fetches, for any remaining fuel `j`. -/
theorem c5_delivered_returns_immediately (client : Client) (m : SmsMessage)
    (jitter : Nat → ℚ) (k j : Nat)
    (hpre : ∀ i, i < k → ∃ u, client.fetch m.sid i = Except.ok u ∧
      u.status ≠ "delivered")
    (hk : ∃ u, client.fetch m.sid k = Except.ok u ∧ u.status = "delivered") :
    (confirm_sms_delivery client (some m) jitter (k + (j + 1))).result =
      some (Except.ok (some "delivered")) ∧
    (confirm_sms_delivery client (some m) jitter (k + (j + 1))).fetches = k + 1 := by
  obtain ⟨u, hu, hd⟩ := hk
  have hskip := confirm_skip client m jitter k 0 (j + 1) (by simpa using hpre)
  have hb := confirmBody_ok client m u k hu
  rw [hd] at hb
  have hstop := retryLoop_stop statusRetry (confirmBody client (some m)) fibo13 jitter j k
    (some "delivered") 1 hb (by decide)
  constructor
  · simp only [confirm_sms_delivery]
    rw [hskip.1, Nat.zero_add, hstop]
  · simp only [confirm_sms_delivery]
    rw [hskip.2, Nat.zero_add, hstop]

/-- Witness for C5: the gateway answers `delivered` on the very first
fetch, and the poller returns `delivered` after exactly one fetch. -/
theorem c5_delivered_returns_immediately_witness :
    (confirm_sms_delivery deliveredClient (some ⟨"SM1", "queued"⟩)
      (fun _ => 1) 1).result = some (Except.ok (some "delivered")) ∧
    (confirm_sms_delivery deliveredClient (some ⟨"SM1", "queued"⟩)
      (fun _ => 1) 1).fetches = 1 :=
  c5_delivered_returns_immediately deliveredClient ⟨"SM1", "queued"⟩ (fun _ => 1) 0 0
    (fun _i hi => absurd hi (by omega))
    ⟨⟨"SM1", "delivered"⟩, rfl, rfl⟩

/-- C8: if the first `k` fetches answer non-`delivered` statuses and
fetch `k` raises, the raised error propagates unchanged out of the
poller (after exactly `k + 1` fetches); the poller masks nothing. -/
theorem c8_fetch_error_propagates (client : Client) (m : SmsMessage)
    (jitter : Nat → ℚ) (k j : Nat) (e : String)
    (hpre : ∀ i, i < k → ∃ u, client.fetch m.sid i = Except.ok u ∧
      u.status ≠ "delivered")
    (he : client.fetch m.sid k = Except.error e) :
    (confirm_sms_delivery client (some m) jitter (k + (j + 1))).result =
      some (Except.error e) ∧
    (confirm_sms_delivery client (some m) jitter (k + (j + 1))).fetches = k + 1 := by
  have hskip := confirm_skip client m jitter k 0 (j + 1) (by simpa using hpre)
  have hb := confirmBody_err client m e k he
  have herr := retryLoop_error statusRetry (confirmBody client (some m)) fibo13 jitter
    j k e 1 hb
  constructor
  · simp only [confirm_sms_delivery]
    rw [hskip.1, Nat.zero_add, herr]
  · simp only [confirm_sms_delivery]
    rw [hskip.2, Nat.zero_add, herr]

/-- Witness for C8: the fetch raises on the first call and the error
text comes back unchanged. -/
theorem c8_fetch_error_propagates_witness :
    (confirm_sms_delivery errClient (some ⟨"SM1", "queued"⟩) (fun _ => 1) 1).result =
      some (Except.error "boom") ∧
    (confirm_sms_delivery errClient (some ⟨"SM1", "queued"⟩) (fun _ => 1) 1).fetches = 1 :=
  c8_fetch_error_propagates errClient ⟨"SM1", "queued"⟩ (fun _ => 1) 0 0 "boom"
    (fun _i hi => absurd hi (by omega)) rfl

/-- A possible outcome stream of the process PRNG: the first
`random.uniform(0, 1)` draw is `1`, the second is `1/2` — both legal
values of a uniform draw on `[0, 1]`. -/
def jitterDown : Nat → ℚ := fun t => if t = 0 then 1 else 1/2

/-- On the `queued`, `queued`, `delivered` gateway the two sleeps of
the run are the first two scheduled backoff values scaled by the first
two jitter draws. -/
lemma qqd_waits (jitter : Nat → ℚ) :
    (confirm_sms_delivery qqdClient (some ⟨"SM2", "queued"⟩) jitter 5).waits =
      [jitter 0 * (fibo13 0 : ℚ), jitter 1 * (fibo13 1 : ℚ)] := by
  simp only [confirm_sms_delivery]
  show (retryLoop statusRetry (confirmBody qqdClient (some ⟨"SM2", "queued"⟩))
    fibo13 jitter (4 + 1) 0).waits = _
  rw [retryLoop_waits_retry statusRetry
    (confirmBody qqdClient (some ⟨"SM2", "queued"⟩)) fibo13 jitter 4 0
    (some "queued") 1 rfl (by decide)]
  show jitter 0 * (fibo13 0 : ℚ) ::
    (retryLoop statusRetry (confirmBody qqdClient (some ⟨"SM2", "queued"⟩))
      fibo13 jitter (3 + 1) (0 + 1)).waits = _
  rw [retryLoop_waits_retry statusRetry
    (confirmBody qqdClient (some ⟨"SM2", "queued"⟩)) fibo13 jitter 3 (0 + 1)
    (some "queued") 1 rfl (by decide)]
  show jitter 0 * (fibo13 0 : ℚ) :: jitter (0 + 1) * (fibo13 (0 + 1) : ℚ) ::
    (retryLoop statusRetry (confirmBody qqdClient (some ⟨"SM2", "queued"⟩))
      fibo13 jitter (2 + 1) (0 + 1 + 1)).waits = _
  rw [retryLoop_stop statusRetry
    (confirmBody qqdClient (some ⟨"SM2", "queued"⟩)) fibo13 jitter 2 (0 + 1 + 1)
    (some "delivered") 1 rfl (by decide)]

/-- C9 counterexample: under these jitter draws, legal for the
decorator's default `full_jitter`, the `queued`, `queued`, `delivered`
run sleeps `1` and then `1/2` — the second wait is shorter than the
first, so the waits between successive fetches are not non-decreasing
as the claim states. -/
theorem c9_counterexample_jittered_waits_decrease :
    (confirm_sms_delivery qqdClient (some ⟨"SM2", "queued"⟩) jitterDown 5).waits =
      [1, 1/2] ∧
    ¬ List.Chain' (· ≤ ·)
      (confirm_sms_delivery qqdClient (some ⟨"SM2", "queued"⟩) jitterDown 5).waits ∧
    (0 ≤ jitterDown 0 ∧ jitterDown 0 ≤ 1) ∧ (0 ≤ jitterDown 1 ∧ jitterDown 1 ≤ 1) := by
  have hw : (confirm_sms_delivery qqdClient (some ⟨"SM2", "queued"⟩)
      jitterDown 5).waits = [1, 1/2] := by
    rw [qqd_waits jitterDown]
    norm_num [jitterDown, show fibo13 0 = 1 from rfl, show fibo13 1 = 1 from rfl]
  refine ⟨hw, ?_, ?_, ?_⟩
  · rw [hw]
    intro hc
    rw [List.chain'_cons] at hc
    exact absurd hc.1 (by norm_num)
  · constructor <;> norm_num [jitterDown]
  · constructor <;> norm_num [jitterDown]

/-- C9 (amended): the per-step backoff schedule drawn from
`backoff.fibo(max_value=13)` is non-decreasing; in every run of the
poller the actual waits are exactly that schedule scaled stepwise by the
run's `full_jitter` draws — so with draws in `[0, 1]` no wait exceeds
its scheduled value, but (as the counterexample shows) the waits
themselves need not be non-decreasing; and on the `queued`, `queued`,
`delivered` gateway the poller returns `delivered` after exactly three
fetches, the two sleeps being the jittered schedule values
`jitter 0 * fibo13 0` and `jitter 1 * fibo13 1` (schedule values
`1, 1`). -/
theorem c9_waits_follow_jittered_nondecreasing_schedule :
    (∀ n, fibo13 n ≤ fibo13 (n + 1)) ∧
    (∀ (client : Client) (sms_message : Option SmsMessage) (jitter : Nat → ℚ)
      (fuel : Nat),
      (confirm_sms_delivery client sms_message jitter fuel).waits =
        (List.range
          (confirm_sms_delivery client sms_message jitter fuel).waits.length).map
          (fun p => jitter p * (fibo13 p : ℚ))) ∧
    (∀ (jitter : Nat → ℚ),
      (confirm_sms_delivery qqdClient (some ⟨"SM2", "queued"⟩) jitter 5).result =
        some (Except.ok (some "delivered")) ∧
      (confirm_sms_delivery qqdClient (some ⟨"SM2", "queued"⟩) jitter 5).fetches = 3 ∧
      (confirm_sms_delivery qqdClient (some ⟨"SM2", "queued"⟩) jitter 5).waits =
        [jitter 0 * (fibo13 0 : ℚ), jitter 1 * (fibo13 1 : ℚ)]) := by
  refine ⟨fibo13_le_succ, ?_, ?_⟩
  · intro client sms_message jitter fuel
    rw [List.range_eq_range']
    exact retryLoop_waits_closed_form statusRetry (confirmBody client sms_message)
      jitter fuel 0
  · intro jitter
    have hirr := retryLoop_jitter_irrelevant statusRetry
      (confirmBody qqdClient (some ⟨"SM2", "queued"⟩)) fibo13 jitter (fun _ => 1) 5 0
    refine ⟨?_, ?_, ?_⟩
    · simp only [confirm_sms_delivery]
      rw [hirr.1]
      rfl
    · simp only [confirm_sms_delivery]
      rw [hirr.2]
      rfl
    · exact qqd_waits jitter

/-! ### Claims about credential loading and the run routine -/

lemma get_sms_credentials_ok (fs : FileSystem) (cfp : Option String)
    (h : fs.pathExists CONFIG_FILEPATH = true) :
    ∃ r, get_sms_credentials fs cfp = Except.ok r := by
  refine ⟨readCredentials (fs.configAt (resolveConfigPath cfp)), ?_⟩
  unfold get_sms_credentials
  rw [if_neg (by simp [h])]

lemma runPipeline_not_crashed (env : Env) (msg : String) (fuel : Nat) (e : String) :
    (runPipeline env msg fuel).1 ≠ RunResult.crashed e := by
  unfold runPipeline
  repeat' split
  all_goals exact fun hcon => RunResult.noConfusion hcon

/-- C10: the path-existence check inside `get_sms_credentials` tests the
module default `CONFIG_FILEPATH`, never the caller-supplied argument.
For every filesystem and every explicitly passed path — existing or not,
equal to the default or not — the call raises the path-does-not-exist
error exactly when the default path is absent: an existing supplied path
does not prevent the raise, and an absent supplied path does not cause
one while the default exists. -/
theorem c10_existence_check_uses_default_path (fs : FileSystem) (p : String) :
    (∃ e, get_sms_credentials fs (some p) = Except.error e) ↔
      fs.pathExists CONFIG_FILEPATH = false := by
  constructor
  · rintro ⟨e, he⟩
    by_contra hfalse
    unfold get_sms_credentials at he
    rw [if_neg hfalse] at he
    exact Except.noConfusion he
  · intro hfalse
    refine ⟨"Path provided for config file does not exist", ?_⟩
    unfold get_sms_credentials
    rw [if_pos hfalse]

/-- A filesystem on which only `/tmp/other.ini` exists: the default
config path is absent. -/
def fsDefaultMissing : FileSystem :=
  ⟨fun q => q == "/tmp/other.ini", fun _ => ⟨[], []⟩⟩

/-- A filesystem on which the default config path exists but its
`Twilio` section lacks `ACCOUNT_SID`. -/
def fsMissingSid : FileSystem :=
  ⟨fun q => q == CONFIG_FILEPATH,
   fun _ => ⟨[("AUTH_TOKEN", "tok0"), ("FROM_PHONE_NUMBER", "from0")],
     [("MY_PHONE_NUMBER", "my0")]⟩⟩

/-- C3 counterexample: with `ACCOUNT_SID` missing from the config,
`get_sms_credentials` does not fail with a configuration error — it
returns normally with an empty credentials dict (the except branch only
prints). -/
theorem c3_counterexample_missing_key_load_succeeds :
    get_sms_credentials fsMissingSid none = Except.ok ([], true) := rfl

/-- C3 (amended): with the default config path present but one of the
four required keys absent, `get_sms_credentials` itself returns normally
with a partial credentials dict; the subsequent key access in `run`
raises a lookup error that `run`'s handler catches, and no message is
submitted to the gateway in that run. -/
theorem c3_missing_key_no_submission (env : Env) (m : String)
    (cliTokens : Option (List String)) (fuel : Nat)
    (hpath : env.fs.pathExists CONFIG_FILEPATH = true)
    (hm : m.isEmpty = false)
    (hmiss :
      List.lookup "ACCOUNT_SID" (env.fs.configAt CONFIG_FILEPATH).twilio = none ∨
      List.lookup "AUTH_TOKEN" (env.fs.configAt CONFIG_FILEPATH).twilio = none ∨
      List.lookup "FROM_PHONE_NUMBER" (env.fs.configAt CONFIG_FILEPATH).twilio = none ∨
      List.lookup "MY_PHONE_NUMBER" (env.fs.configAt CONFIG_FILEPATH).general = none) :
    (∃ r, get_sms_credentials env.fs none = Except.ok r) ∧
      run env (some m) cliTokens fuel = (RunResult.finished, 0) := by
  refine ⟨get_sms_credentials_ok env.fs none hpath, ?_⟩
  have hres : resolveMessage (some m) cliTokens = Except.ok m := by
    simp [resolveMessage, hm]
  have hget : get_sms_credentials env.fs none =
      Except.ok (readCredentials (env.fs.configAt CONFIG_FILEPATH)) := by
    unfold get_sms_credentials
    rw [if_neg (by simp [hpath])]
    rfl
  simp only [run, hres]
  simp only [runPipeline, hget]
  cases h1 : List.lookup "ACCOUNT_SID" (env.fs.configAt CONFIG_FILEPATH).twilio with
  | none =>
    have hrc : readCredentials (env.fs.configAt CONFIG_FILEPATH) = ([], true) := by
      unfold readCredentials
      rw [h1]
    rw [hrc]
    rfl
  | some sid =>
    cases h2 : List.lookup "AUTH_TOKEN" (env.fs.configAt CONFIG_FILEPATH).twilio with
    | none =>
      have hrc : readCredentials (env.fs.configAt CONFIG_FILEPATH) =
          ([("ACCOUNT_SID", sid)], true) := by
        unfold readCredentials
        rw [h1, h2]
      rw [hrc]
      simp [List.lookup]
    | some token =>
      cases h3 : List.lookup "FROM_PHONE_NUMBER"
          (env.fs.configAt CONFIG_FILEPATH).twilio with
      | none =>
        have hrc : readCredentials (env.fs.configAt CONFIG_FILEPATH) =
            ([("ACCOUNT_SID", sid), ("AUTH_TOKEN", token)], true) := by
          unfold readCredentials
          rw [h1, h2, h3]
        rw [hrc]
        simp [List.lookup]
      | some fromNum =>
        cases h4 : List.lookup "MY_PHONE_NUMBER"
            (env.fs.configAt CONFIG_FILEPATH).general with
        | none =>
          have hrc : readCredentials (env.fs.configAt CONFIG_FILEPATH) =
              ([("ACCOUNT_SID", sid), ("AUTH_TOKEN", token),
                ("FROM_PHONE_NUMBER", fromNum)], true) := by
            unfold readCredentials
            rw [h1, h2, h3, h4]
          rw [hrc]
          simp [List.lookup]
        | some toNum =>
          rcases hmiss with h | h | h | h
          · rw [h] at h1
            exact Option.noConfusion h1
          · rw [h] at h2
            exact Option.noConfusion h2
          · rw [h] at h3
            exact Option.noConfusion h3
          · rw [h] at h4
            exact Option.noConfusion h4

/-- A filesystem whose config at the default path carries all four
keys. -/
def fsComplete : FileSystem :=
  ⟨fun q => q == CONFIG_FILEPATH,
   fun _ => ⟨[("ACCOUNT_SID", "sid0"), ("AUTH_TOKEN", "tok0"),
     ("FROM_PHONE_NUMBER", "from0")], [("MY_PHONE_NUMBER", "my0")]⟩⟩

/-- An environment with the default config path present but
`ACCOUNT_SID` missing; the gateway is never reachable. -/
def envMissingSid : Env :=
  ⟨fsMissingSid, fun _ _ => errClient, fun _ => 1⟩

/-- Witness for the amended C3 at a concrete environment. -/
theorem c3_missing_key_no_submission_witness :
    (∃ r, get_sms_credentials envMissingSid.fs none = Except.ok r) ∧
      run envMissingSid (some "hello") none 5 = (RunResult.finished, 0) :=
  c3_missing_key_no_submission envMissingSid "hello" none 5 rfl rfl
    (Or.inl rfl)

/-- An environment whose default config path is absent. -/
def env0 : Env :=
  ⟨fsDefaultMissing, fun _ _ => errClient, fun _ => 1⟩

/-- C4 counterexample: invoking `run` with no message argument and no
`-m` flag joins the absent parsed argument before the `try` block, and
the resulting `TypeError` escapes `run` instead of being caught. -/
theorem c4_counterexample_no_message_crashes :
    run env0 none none 5 =
      (RunResult.crashed "TypeError: can only join an iterable", 0) := rfl

/-- C4 (amended): every error raised inside `run`'s `try` block
(credential loading through logging) is caught, so whenever the
message-argument resolution that precedes the `try` block succeeds, no
exception escapes `run`; the no-message/no-flag case, which fails in
that preceding step, is the exception documented by the
counterexample. -/
theorem c4_run_catches_pipeline_errors (env : Env) (message : Option String)
    (cliTokens : Option (List String)) (fuel : Nat) (s : String)
    (hres : resolveMessage message cliTokens = Except.ok s) (e : String) :
    (run env message cliTokens fuel).1 ≠ RunResult.crashed e := by
  simp only [run, hres]
  exact runPipeline_not_crashed env s fuel e

/-- Witness for the amended C4: with a present message, `run` does not
crash even when everything else (config, gateway) is broken. -/
theorem c4_run_catches_pipeline_errors_witness :
    (run env0 (some "hello") none 5).1 ≠ RunResult.crashed "err" :=
  c4_run_catches_pipeline_errors env0 (some "hello") none 5 "hello" rfl "err"

/-! ### Claims about the message dispatcher -/

/-- C6: with any required field missing or empty — no client, falsy
from-number, falsy to-number, or falsy message body — `send_sms_message`
raises a `ValueError` and performs zero gateway calls. -/
theorem c6_missing_field_validation_error (client : Option Client)
    (from_phone_number to_phone_number message : Option String)
    (h : client = none ∨ falsyStr from_phone_number = true ∨
      falsyStr to_phone_number = true ∨ falsyStr message = true) :
    (∃ e, (send_sms_message client from_phone_number to_phone_number message).1 =
      Except.error e) ∧
    (send_sms_message client from_phone_number to_phone_number message).2 = 0 := by
  cases client with
  | none => exact ⟨⟨"No API client found.", rfl⟩, rfl⟩
  | some c =>
    simp only [send_sms_message]
    split_ifs with h1 h2 h3
    · exact ⟨⟨"No from-phone-number found.", rfl⟩, rfl⟩
    · exact ⟨⟨"No to-phone-number found.", rfl⟩, rfl⟩
    · exact ⟨⟨"No message found.", rfl⟩, rfl⟩
    · rcases h with h | h | h | h
      · exact Option.noConfusion h
      · exact absurd h h1
      · exact absurd h h2
      · exact absurd h h3

/-- Witness for C6: an empty message body fails validation with zero
gateway calls. -/
theorem c6_missing_field_validation_error_witness :
    (∃ e, (send_sms_message (some errClient) (some "+15550001") (some "+15550002")
      (some "")).1 = Except.error e) ∧
    (send_sms_message (some errClient) (some "+15550001") (some "+15550002")
      (some "")).2 = 0 :=
  c6_missing_field_validation_error (some errClient) (some "+15550001")
    (some "+15550002") (some "") (Or.inr (Or.inr (Or.inr rfl)))

/-- C7: with all required fields present, a raised gateway submit error
is caught — `send_sms_message` returns normally with a `None` handle and
the warning logged — while a successful submit returns the gateway's
handle; exactly one gateway call is made either way. -/
theorem c7_gateway_error_gives_null_handle (c : Client) (f t m : String)
    (hf : f.isEmpty = false) (ht : t.isEmpty = false) (hm : m.isEmpty = false) :
    (∀ e, c.create t m f = Except.error e →
      send_sms_message (some c) (some f) (some t) (some m) =
        (Except.ok ⟨none, true⟩, 1)) ∧
    (∀ u, c.create t m f = Except.ok u →
      send_sms_message (some c) (some f) (some t) (some m) =
        (Except.ok ⟨some u, false⟩, 1)) := by
  constructor
  · intro e he
    simp [send_sms_message, falsyStr, hf, ht, hm, he]
  · intro u hu
    simp [send_sms_message, falsyStr, hf, ht, hm, hu]

/-- Witness for C7: the gateway rejects the submission and the
dispatcher returns the `None` handle with the warning flag after one
gateway call. -/
theorem c7_gateway_error_gives_null_handle_witness :
    send_sms_message (some errClient) (some "+15550001") (some "+15550002")
      (some "hello") = (Except.ok ⟨none, true⟩, 1) :=
  (c7_gateway_error_gives_null_handle errClient "+15550001" "+15550002" "hello"
    rfl rfl rfl).1 "boom" rfl

end TextMyself
